import Mathlib

/-!
Shallow embedding of the offline-first sync core of the WanderSync trip planner:
the rate-limited weather fetch guard of `geminiService.ts`
(`retryWithBackoff`, `getCityWeather`), the cloud helpers `pushToCloud` and
`pullFromCloud`, and the reconciliation / debounced auto-sync logic of the
`App` component (`handleUpdateAndSync`, the debounced effect,
`performInitialPull`).

Modelling conventions:
* JavaScript numbers the sync logic never computes with (budgets, amounts,
  temperatures) are modelled as `Int`; clock readings from `Date.now()` are
  `Nat` milliseconds; ISO-8601 timestamps are `String`.
* `localStorage` is modelled as typed fields rather than raw JSON strings;
  the JSON round-trip of a stored document is assumed faithful.
* Network interactions are oracles passed as arguments: `fn i` is the
  outcome of the i-th attempt of a guarded call, and a pull or push outcome
  is an explicit input.  Asynchronous effects become explicit state
  passing; a thrown JS exception becomes an `Except`/`Option` result, so a
  function that never throws past its boundary is total into `Option`.
* `Date.now()` within one synchronous stretch is a single instant `now`;
  the clock at which retry attempt `i` observes an error is `errTime i`.
-/

namespace WanderSync

/-! ### JavaScript string primitives -/

/-- JS string comparison `a < b`, lexicographic on code units (identical to
codepoint order for the ASCII ISO-8601 strings compared here). -/
def jsStrLtChars : List Char → List Char → Bool
  | [], [] => false
  | [], _ :: _ => true
  | _ :: _, [] => false
  | a :: as, b :: bs => if a < b then true else if b < a then false else jsStrLtChars as bs

/-- JS `a < b` on strings. -/
def jsStrLt (a b : String) : Bool := jsStrLtChars a.data b.data

/-- Whether `p` is an initial segment of `l`. -/
def startsWithChars : List Char → List Char → Bool
  | [], _ => true
  | _ :: _, [] => false
  | p :: ps, c :: cs => p == c && startsWithChars ps cs

/-- Occurrence of `pat` anywhere in the character list. -/
def jsIncludesChars (pat : List Char) : List Char → Bool
  | [] => pat.isEmpty
  | c :: rest => startsWithChars pat (c :: rest) || jsIncludesChars pat rest

/-- JS `s.includes(pat)`. -/
def jsIncludes (s pat : String) : Bool := jsIncludesChars pat.data s.data

/-- JS `s.toLowerCase()` (codepoint-wise, adequate for the inputs here). -/
def jsToLower (s : String) : String := String.mk (s.data.map Char.toLower)

/-- JS `s.replace(ws-run-pattern, underscore)`: every maximal whitespace run
becomes a single underscore.  The boolean records whether the previous
character was whitespace. -/
def collapseWsChars : Bool → List Char → List Char
  | _, [] => []
  | prevWs, c :: rest =>
    if c.isWhitespace then
      (if prevWs then [] else ['_']) ++ collapseWsChars true rest
    else c :: collapseWsChars false rest

/-- Truthiness of an optional JS string (`undefined` and the empty string
are falsy). -/
def jsTruthyStr : Option String → Bool
  | none => false
  | some s => !(s == "")

/-- JS `a || b` where `a` is an optional string. -/
def jsOrStr (a : Option String) (b : String) : String :=
  match a with
  | none => b
  | some s => if s == "" then b else s

/-! ### Data model (`types.ts`) -/

inductive EventCategory where
  | TRANSPORT
  | ACCOMMODATION
  | SIGHTSEEING
  | DINING
  | ACTIVITY
  | NOTE
deriving DecidableEq

structure HighlightLabel where
  text : String
  type : String
deriving DecidableEq

structure Attachment where
  id : String
  name : String
  mimeType : String
  data : String
deriving DecidableEq

structure ItineraryEvent where
  id : String
  title : String
  category : EventCategory
  startTime : String
  location : Option String
  mapLink : Option String
  notes : Option String
  isCompleted : Bool
  cost : Option Int
  labels : Option (List HighlightLabel)
  reservationCode : Option String
  story : Option String
  color : Option String
  attachments : Option (List Attachment)
deriving DecidableEq

structure Expense where
  id : String
  description : String
  amount : Int
  category : String
  date : String
  receiptUrl : Option String
deriving DecidableEq

structure FlightInfo where
  id : String
  flightNo : String
  departure : String
  arrival : String
  departureTime : String
  arrivalTime : String
  bookingNumber : Option String
  ticketUrl : Option String
  attachments : Option (List Attachment)
deriving DecidableEq

structure OtherTransport where
  id : String
  type : String
  title : String
  details : String
  time : String
  attachments : Option (List Attachment)
deriving DecidableEq

structure Accommodation where
  id : String
  name : String
  startDate : String
  endDate : String
  location : Option String
  mapLink : Option String
  notes : Option String
  attachments : Option (List Attachment)
deriving DecidableEq

/-- `Trip`, the single unit of synchronization. -/
structure Trip where
  id : String
  name : String
  destination : String
  startDate : String
  endDate : String
  events : List ItineraryEvent
  participants : List String
  flights : List FlightInfo
  otherTransport : List OtherTransport
  accommodations : List Accommodation
  expenses : List Expense
  budget : Int
  headerImage : Option String
  headerImagePosition : Option Int
  tripNotes : Option String
  cloudId : Option String
  lastSynced : Option String
deriving DecidableEq

/-! ### Rate-limited weather fetch guard (`geminiService.ts`) -/

/-- `CACHE_DURATION = 4 * 60 * 60 * 1000` (4 hours). -/
def CACHE_DURATION : Nat := 4 * 60 * 60 * 1000

/-- `COOLDOWN_DURATION = 15 * 60 * 1000` (15-minute circuit breaker). -/
def COOLDOWN_DURATION : Nat := 15 * 60 * 1000

/-- The observable parts of a caught JS exception. -/
structure JsError where
  message : Option String
  status : Option Int
deriving DecidableEq

/-- The rate-limit classification in the catch block of `retryWithBackoff`. -/
def isRateLimit (e : JsError) : Bool :=
  (match e.message with | some m => jsIncludes m "429" | none => false)
  || e.status == some 429
  || (match e.message with | some m => jsIncludes m "RESOURCE_EXHAUSTED" | none => false)

/-- Observable trace of one `retryWithBackoff` invocation: final outcome,
number of calls made to `fn`, the backoff delays slept (in order), and the
cooldown values written to Local Store (each `Date.now() +
COOLDOWN_DURATION` at the moment a rate-limit error was observed, in
order; the last write wins). -/
structure RetryResult (T : Type) where
  result : Except JsError T
  callsMade : Nat
  sleeps : List Nat
  cooldownSets : List Nat

/-- The `for` loop of `retryWithBackoff`, recursing on the number of
retries still allowed (`maxRetries - i`).  `fn j` is the outcome of
attempt `j`; `errTime j` is the clock when an error of attempt `j` is
observed. -/
def retryLoop {T : Type} (fn : Nat → Except JsError T) (errTime : Nat → Nat) :
    Nat → Nat → Nat → RetryResult T
  | i, _, 0 =>
    (match fn i with
     | Except.ok v => ⟨Except.ok v, 1, [], []⟩
     | Except.error e =>
       ⟨Except.error e, 1, [],
        if isRateLimit e then [errTime i + COOLDOWN_DURATION] else []⟩)
  | i, delay, r + 1 =>
    (match fn i with
     | Except.ok v => ⟨Except.ok v, 1, [], []⟩
     | Except.error e =>
       if isRateLimit e then
         let rest := retryLoop fn errTime (i + 1) (delay * 2) r
         ⟨rest.result, rest.callsMade + 1, delay :: rest.sleeps,
          (errTime i + COOLDOWN_DURATION) :: rest.cooldownSets⟩
       else ⟨Except.error e, 1, [], []⟩)

/-- `retryWithBackoff(fn, maxRetries, initialDelay)`; the defaults in the source
are `maxRetries = 1`, `initialDelay = 3000`. -/
def retryWithBackoff {T : Type} (fn : Nat → Except JsError T) (errTime : Nat → Nat)
    (maxRetries : Nat) (initialDelay : Nat) : RetryResult T :=
  retryLoop fn errTime 0 initialDelay maxRetries

/-- Weather payload as parsed from the response text; absent fields are
`none`. -/
structure WeatherData where
  temp : Option Int
  condition : Option String
deriving DecidableEq

/-- A cached weather value: the JSON object with `data` and `timestamp`
stored under a `ws_weather_`-prefixed key. -/
structure CacheEntry where
  data : WeatherData
  timestamp : Nat
deriving DecidableEq

/-- Outcome of the body parse inside the `try` block: `JSON.parse` of the
response text either throws or yields a payload (an empty or missing
response text parses to the empty object, i.e. `parsed ⟨none, none⟩`). -/
inductive RespParse where
  | parseError
  | parsed (w : WeatherData)
deriving DecidableEq

/-- The slice of Local Store owned by the weather service: the numeric
string under the cooldown key, and the cache entries. -/
structure WeatherStore where
  cooldown : Option Nat
  cache : String → Option CacheEntry

/-- Result of one `getCityWeather` call: the returned value (null becomes
`none`), how many network calls were issued, and the updated store. -/
structure FetchOutcome where
  result : Option WeatherData
  networkCalls : Nat
  store : WeatherStore

/-- The cache key for a city. -/
def weatherCacheKey (city : String) : String :=
  "ws_weather_" ++ String.mk (collapseWsChars false (jsToLower city).data)

/-- The circuit-breaker test: the stored cooldown string is truthy and
`Date.now()` has not yet reached it. -/
def cooldownActive (cooldown : Option Nat) (now : Nat) : Bool :=
  match cooldown with
  | some cd => decide (now < cd)
  | none => false

/-- Freshness test of step 2: a cache entry for `key` exists and is within
`CACHE_DURATION` of `now`. -/
def cacheFresh (s : WeatherStore) (key : String) (now : Nat) : Bool :=
  match s.cache key with
  | some e => decide (now - e.timestamp < CACHE_DURATION)
  | none => false

/-- `localStorage.setItem` of a cache entry. -/
def setCache (cache : String → Option CacheEntry) (key : String) (e : CacheEntry) :
    String → Option CacheEntry :=
  fun k => if k = key then some e else cache k

/-- Each cooldown write during the retry loop overwrites the previous one,
so the last write wins. -/
def applyCooldownSets (sets : List Nat) (cd : Option Nat) : Option Nat :=
  match sets.getLast? with
  | some v => some v
  | none => cd

/-- The catch block of `getCityWeather`: stale-cache fallback.  `cached` is
the entry read in step 2, before the network call. -/
def staleFallback (cached : Option CacheEntry) (calls : Nat) (s : WeatherStore) :
    FetchOutcome :=
  match cached with
  | some e => ⟨some e.data, calls, s⟩
  | none => ⟨none, calls, s⟩

/-- Steps 3-5 of `getCityWeather`: the guarded network call through
`retryWithBackoff` (with the default arguments of the source), the body parse,
the conditional cache write, and the catch-block fallback. -/
def weatherNetworkCall (now : Nat) (fn : Nat → Except JsError RespParse)
    (errTime : Nat → Nat) (s : WeatherStore) (cached : Option CacheEntry)
    (cacheKey : String) : FetchOutcome :=
  let r := retryWithBackoff fn errTime 1 3000
  let s1 : WeatherStore := ⟨applyCooldownSets r.cooldownSets s.cooldown, s.cache⟩
  match r.result with
  | Except.ok (RespParse.parsed w) =>
    (match w.temp with
     | some _ => ⟨some w, r.callsMade, ⟨s1.cooldown, setCache s1.cache cacheKey ⟨w, now⟩⟩⟩
     | none => ⟨none, r.callsMade, s1⟩)
  | Except.ok RespParse.parseError => staleFallback cached r.callsMade s1
  | Except.error _ => staleFallback cached r.callsMade s1

/-- `getCityWeather(city)`: empty-city guard, circuit-breaker check with
stale-cache service, fresh-cache check, then the guarded network call. -/
def getCityWeather (city : String) (now : Nat) (fn : Nat → Except JsError RespParse)
    (errTime : Nat → Nat) (s : WeatherStore) : FetchOutcome :=
  if city = "" then ⟨none, 0, s⟩
  else
    let cacheKey := weatherCacheKey city
    if cooldownActive s.cooldown now then
      match s.cache cacheKey with
      | some e => ⟨some e.data, 0, s⟩
      | none => ⟨none, 0, s⟩
    else
      match s.cache cacheKey with
      | some e =>
        if now - e.timestamp < CACHE_DURATION then ⟨some e.data, 0, s⟩
        else weatherNetworkCall now fn errTime s (some e) cacheKey
      | none => weatherNetworkCall now fn errTime s none cacheKey

/-! ### Cloud sync and reconciliation (`App.tsx`, the richer
timestamp-comparison variant) -/

/-- The sync-relevant state of an `App` session: `online` mirrors
`navigator.onLine`; `trip` is the React state; `storedTrip` and
`pendingFlag` are the Local Store values under the trip key and the
pending-sync key (the flag is stored as the string `true` or absent);
`pendingTimer` is the payload captured by the armed debounce timer, if
any; `pushLog` records every push dispatched so far (in order). -/
structure AppState where
  online : Bool
  trip : Option Trip
  storedTrip : Option Trip
  pendingFlag : Bool
  hasPendingSync : Bool
  lastSyncedAt : Option String
  syncing : Bool
  pendingTimer : Option Trip
  pushLog : List Trip
deriving DecidableEq

/-- `pushToCloud(trip)`: `netOk = false` models the `fetch` rejecting with
a network-level exception.  The dispatched document is recorded in
`pushLog` (the wire payload also carries `clientVersion` and `pushedAt`
metadata, which no claim concerns).  On resolution the pending-sync key is
removed; on rejection it is set. -/
def pushToCloud (netOk : Bool) (t : Trip) (s : AppState) : Bool × AppState :=
  if netOk then
    (true, { s with pendingFlag := false, pushLog := s.pushLog ++ [t] })
  else
    (false, { s with pendingFlag := true, pushLog := s.pushLog ++ [t] })

/-- Outcome of `response.json()` during a pull: a parse failure (which
throws) or a parsed value; `parsed none` models a falsy JSON value such as
`null`. -/
inductive BodyParse where
  | parseError
  | parsed (d : Option Trip)
deriving DecidableEq

/-- Transport-level outcome of the pull `fetch`: rejection, or a response
with its `ok` flag and body. -/
inductive PullNet where
  | transportError
  | response (ok : Bool) (body : BodyParse)
deriving DecidableEq

/-- `pullFromCloud()`: cache-busted GET; null on a non-ok response; the
parsed document is accepted if and only if it is truthy with a truthy
`id`; any thrown error is caught and becomes null. -/
def pullFromCloud : PullNet → Option Trip
  | PullNet.transportError => none
  | PullNet.response ok body =>
    if ok then
      match body with
      | BodyParse.parseError => none
      | BodyParse.parsed d =>
        (match d with
         | some t => if t.id == "" then none else some t
         | none => none)
    else none

/-- The merge condition of `performInitialPull`: adopt the cloud copy when
there is no local copy, or when both carry truthy `lastSynced` stamps and
the cloud one compares greater as a JS string. -/
def adoptCloud (localData : Option Trip) (cloud : Trip) : Bool :=
  match localData with
  | none => true
  | some l =>
    match cloud.lastSynced, l.lastSynced with
    | some cs, some ls => !(cs == "") && !(ls == "") && jsStrLt ls cs
    | _, _ => false

/-- The pure reconcile decision embodied by `performInitialPull`: which
copy of the document ends up stored.  Absent cloud data leaves the local
copy in place; otherwise the merge condition picks a side. -/
def reconcile (localData : Option Trip) (cloudData : Option Trip) : Option Trip :=
  match cloudData with
  | none => localData
  | some cloud => if adoptCloud localData cloud then some cloud else localData

/-- `performInitialPull()`, with the result of `pullFromCloud` supplied as
`cloudData` and `navigator.onLine` read from the state.  Adopting the
cloud copy also updates the displayed sync time (only if the cloud stamp
is truthy), clears both pending-sync indicators, and always ends with
`syncing = false` when online. -/
def performInitialPull (cloudData : Option Trip) (s : AppState) : AppState :=
  if s.online then
    match cloudData with
    | none => { s with syncing := false }
    | some cloud =>
      if adoptCloud s.storedTrip cloud then
        { s with trip := some cloud, storedTrip := some cloud,
                 lastSyncedAt :=
                   if jsTruthyStr cloud.lastSynced then cloud.lastSynced else s.lastSyncedAt,
                 hasPendingSync := false, pendingFlag := false, syncing := false }
      else { s with syncing := false }
  else s

/-- The timestamp stamp of a local edit. -/
def stampTrip (now : String) (t : Trip) : Trip := { t with lastSynced := some now }

/-- `handleUpdateAndSync(updatedTrip)`: stamp `lastSynced = now`, set the
in-memory document, and write it synchronously to Local Store.  The cloud
push is not touched here; it is handled by the debounced effect. -/
def handleUpdateAndSync (now : String) (updatedTrip : Trip) (s : AppState) : AppState :=
  { s with trip := some (stampTrip now updatedTrip),
           storedTrip := some (stampTrip now updatedTrip) }

/-- The debounced auto-sync effect run after a `trip` change:
`clearTimeout` then `setTimeout` re-arms the single timer, capturing the
current document as the eventual push payload. -/
def debounceEffect (s : AppState) : AppState :=
  match s.trip with
  | none => s
  | some t => { s with pendingTimer := some t }

/-- One local edit as the runtime executes it: the synchronous
`handleUpdateAndSync`, then the effect that re-arms the debounce timer. -/
def localEditStep (edit : String × Trip) (s : AppState) : AppState :=
  debounceEffect (handleUpdateAndSync edit.1 edit.2 s)

/-- A burst of local edits, in order. -/
def applyEdits (edits : List (String × Trip)) (s : AppState) : AppState :=
  edits.foldl (fun st e => localEditStep e st) s

/-- The debounce timer expiring: the scheduled callback runs with the
document captured at schedule time.  Online it pushes and updates the
status fields; offline it sets the pending-sync key and flag. -/
def timerFire (netOk : Bool) (nowIso : String) (s : AppState) : AppState :=
  match s.pendingTimer with
  | none => s
  | some t =>
    let s0 := { s with pendingTimer := none }
    if s0.online then
      let r := pushToCloud netOk t s0
      if r.1 then
        { r.2 with lastSyncedAt := some (jsOrStr t.lastSynced nowIso),
                   hasPendingSync := false, syncing := false }
      else { r.2 with hasPendingSync := true, syncing := false }
    else { s0 with pendingFlag := true, hasPendingSync := true }

/-- How a fresh session initializes `hasPendingSync`: reading the
persisted pending-sync key from Local Store. -/
def loadHasPendingSync (s : AppState) : Bool := s.pendingFlag

/-! ### Concrete fixtures used by the witness theorems -/

def tripL : Trip :=
  { id := "t1", name := "JC US Trip 2026", destination := "US and Toronto",
    startDate := "2026-05-15", endDate := "2026-05-29",
    events := [], participants := [], flights := [], otherTransport := [],
    accommodations := [], expenses := [], budget := 50000,
    headerImage := none, headerImagePosition := some 50, tripNotes := none,
    cloudId := none, lastSynced := some "2026-01-01T00:00:00Z" }

def tripR : Trip :=
  { tripL with id := "t1burning", lastSynced := some "2026-01-02T00:00:00Z" }

def stateW : AppState :=
  { online := true, trip := some tripL, storedTrip := some tripL,
    pendingFlag := false, hasPendingSync := false, lastSyncedAt := none,
    syncing := false, pendingTimer := none, pushLog := [] }

def weatherDataEx : WeatherData := { temp := some 20, condition := some "Sunny" }

/-- An unconditionally failing (non-rate-limit) network oracle. -/
def fnErr : Nat → Except JsError RespParse :=
  fun _ => Except.error { message := some "offline", status := none }

/-- An unconditionally rate-limited network oracle. -/
def fn429 : Nat → Except JsError Nat :=
  fun _ => Except.error { message := some "429 rate limit", status := none }

/-- A network oracle whose payload parses but lacks `temp`. -/
def fnNoTemp : Nat → Except JsError RespParse :=
  fun _ => Except.ok (RespParse.parsed { temp := none, condition := some "Sunny" })

def timeZero : Nat → Nat := fun _ => 0

def timeLin : Nat → Nat := fun i => 1000 * i

/-- A store in cooldown holding one (arbitrarily old) cached entry. -/
def storeCooldown : WeatherStore :=
  { cooldown := some 1000,
    cache := fun k =>
      if k = "ws_weather_paris" then some { data := weatherDataEx, timestamp := 0 }
      else none }

/-- A store with no cooldown whose single cache entry is past the
freshness window at `now = CACHE_DURATION`. -/
def staleStore : WeatherStore :=
  { cooldown := none,
    cache := fun k =>
      if k = "ws_weather_paris" then some { data := weatherDataEx, timestamp := 0 }
      else none }

def emptyStore : WeatherStore := { cooldown := none, cache := fun _ => none }

def editsEx : List (String × Trip) :=
  [("2026-01-01T00:00:00Z", tripL), ("2026-01-02T00:00:00Z", tripR)]

/-- The geometric backoff schedule: `n` delays starting at `delay`,
doubling each time. -/
def geometricList (delay : Nat) : Nat → List Nat
  | 0 => []
  | n + 1 => delay :: geometricList (delay * 2) n

/-! ### Helper lemmas -/

lemma jsStrLtChars_irrefl (l : List Char) : jsStrLtChars l l = false := by
  induction l with
  | nil => rfl
  | cons c cs ih => simp [jsStrLtChars, ih]

lemma jsStrLt_irrefl (s : String) : jsStrLt s s = false :=
  jsStrLtChars_irrefl s.data

lemma localEditStep_pushLog (e : String × Trip) (s : AppState) :
    (localEditStep e s).pushLog = s.pushLog := rfl

lemma localEditStep_online (e : String × Trip) (s : AppState) :
    (localEditStep e s).online = s.online := rfl

lemma localEditStep_timer (e : String × Trip) (s : AppState) :
    (localEditStep e s).pendingTimer = some (stampTrip e.1 e.2) := rfl

/-- Invariant of an edit burst: no push is dispatched, connectivity is
untouched, and the armed timer carries the stamp of the last edit (or is
untouched when the burst is empty). -/
lemma applyEdits_spec (edits : List (String × Trip)) (s : AppState) :
    (applyEdits edits s).pushLog = s.pushLog ∧
    (applyEdits edits s).online = s.online ∧
    (applyEdits edits s).pendingTimer =
      (match edits.getLast? with
       | some e => some (stampTrip e.1 e.2)
       | none => s.pendingTimer) := by
  induction edits generalizing s with
  | nil => exact ⟨rfl, rfl, rfl⟩
  | cons e es ih =>
    have hstep : applyEdits (e :: es) s = applyEdits es (localEditStep e s) := rfl
    rw [hstep]
    obtain ⟨h1, h2, h3⟩ := ih (localEditStep e s)
    refine ⟨h1.trans (localEditStep_pushLog e s),
            h2.trans (localEditStep_online e s), ?_⟩
    rw [h3]
    cases es with
    | nil => simp [localEditStep_timer]
    | cons b bs =>
      rcases hL : (b :: bs).getLast? with _ | p
      · exact absurd (List.getLast?_eq_none_iff.mp hL) (by simp)
      · simp [List.getLast?_cons_cons, hL]

/-- `reconcile` is exactly the stored-document decision that
`performInitialPull` makes when online. -/
lemma performInitialPull_reconcile (cd : Option Trip) (s : AppState)
    (hon : s.online = true) :
    (performInitialPull cd s).storedTrip = reconcile s.storedTrip cd := by
  cases cd with
  | none => simp [performInitialPull, hon, reconcile]
  | some cloud =>
    cases h : adoptCloud s.storedTrip cloud with
    | true => simp [performInitialPull, hon, reconcile, h]
    | false => simp [performInitialPull, hon, reconcile, h]

/-- When the empty-city guard, the circuit breaker, and the fresh-cache
check all fall through, `getCityWeather` performs the guarded network
call with the step-2 cache read as the fallback entry. -/
lemma getCityWeather_network_eq (city : String) (now : Nat)
    (fn : Nat → Except JsError RespParse) (errTime : Nat → Nat) (s : WeatherStore)
    (hcity : city ≠ "") (hcd : cooldownActive s.cooldown now = false)
    (hfresh : cacheFresh s (weatherCacheKey city) now = false) :
    getCityWeather city now fn errTime s =
      weatherNetworkCall now fn errTime s (s.cache (weatherCacheKey city))
        (weatherCacheKey city) := by
  unfold cacheFresh at hfresh
  rcases hc : s.cache (weatherCacheKey city) with _ | e
  · simp [getCityWeather, hcity, hcd, hc]
  · rw [hc] at hfresh
    have hnf : ¬ (now - e.timestamp < CACHE_DURATION) := of_decide_eq_false hfresh
    simp [getCityWeather, hcity, hcd, hc, hnf]

/-- Every `retryWithBackoff` run sleeps an initial run of the geometric
schedule: the first backoff is `delay` and each subsequent one doubles. -/
lemma retryLoop_sleeps_geometric {T : Type} (fn : Nat → Except JsError T)
    (errTime : Nat → Nat) :
    ∀ (r i delay : Nat), ∃ n,
      (retryLoop fn errTime i delay r).sleeps = geometricList delay n := by
  intro r
  induction r with
  | zero =>
    intro i delay
    rcases hfn : fn i with e | v
    · exact ⟨0, by simp [retryLoop, hfn, geometricList]⟩
    · exact ⟨0, by simp [retryLoop, hfn, geometricList]⟩
  | succ r ih =>
    intro i delay
    rcases hfn : fn i with e | v
    · cases hrl : isRateLimit e with
      | false => exact ⟨0, by simp [retryLoop, hfn, hrl, geometricList]⟩
      | true =>
        obtain ⟨n, hn⟩ := ih (i + 1) (delay * 2)
        exact ⟨n + 1, by simp [retryLoop, hfn, hrl, geometricList, hn]⟩
    · exact ⟨0, by simp [retryLoop, hfn, geometricList]⟩

/-! ### Claim theorems -/

/-- Claim C2: immediately after `handleUpdateAndSync` returns, the
document stored under the trip key in Local Store (and the in-memory
document) equals the edited document stamped with `lastSynced = now`; no
push is dispatched and no push is scheduled by this synchronous step —
independent of network state, as witnessed by the commutation with an
arbitrary `online` value — and the push that the subsequent debounced
effect schedules carries exactly the stamped, stored document. -/
theorem edit_durability (now : String) (doc : Trip) (s : AppState) :
    (handleUpdateAndSync now doc s).storedTrip = some (stampTrip now doc) ∧
    (handleUpdateAndSync now doc s).trip = some (stampTrip now doc) ∧
    (handleUpdateAndSync now doc s).pushLog = s.pushLog ∧
    (handleUpdateAndSync now doc s).pendingTimer = s.pendingTimer ∧
    (∀ b, handleUpdateAndSync now doc { s with online := b } =
      { handleUpdateAndSync now doc s with online := b }) ∧
    (localEditStep (now, doc) s).pendingTimer = some (stampTrip now doc) :=
  ⟨rfl, rfl, rfl, rfl, fun _ => rfl, rfl⟩

/-- Claim C3: the reconcile decision is deterministic and idempotent —
applying it twice with the same inputs yields the same result (both in
the literal sense and when re-running it on its own output) — and it
adopts the remote unconditionally when local is absent and keeps the
local document when remote is absent. -/
theorem reconcile_deterministic_idempotent (l r : Option Trip) :
    reconcile l r = reconcile l r ∧
    reconcile (reconcile l r) r = reconcile l r ∧
    reconcile l none = l ∧
    reconcile none r = r := by
  refine ⟨rfl, ?_, rfl, ?_⟩
  · cases r with
    | none => rfl
    | some cloud =>
      cases h : adoptCloud l cloud with
      | true =>
        have h1 : reconcile l (some cloud) = some cloud := by simp [reconcile, h]
        have h2 : adoptCloud (some cloud) cloud = false := by
          rcases hls : cloud.lastSynced with _ | cs <;>
            simp [adoptCloud, hls, jsStrLt_irrefl]
        rw [h1]
        simp [reconcile, h2]
      | false =>
        have h1 : reconcile l (some cloud) = l := by simp [reconcile, h]
        rw [h1, h1]
  · cases r with
    | none => rfl
    | some cloud => simp [reconcile, adoptCloud]

/-- Claim C7: a push failing with a network-level exception sets the
pending-sync flag and persists it to Local Store, so a reloaded session
initializes `hasPendingSync` to true from the persisted key; a successful
push removes the persisted flag. -/
theorem push_failure_persists_pending (t : Trip) (s : AppState) :
    (pushToCloud false t s).1 = false ∧
    (pushToCloud false t s).2.pendingFlag = true ∧
    loadHasPendingSync (pushToCloud false t s).2 = true ∧
    (pushToCloud true t s).1 = true ∧
    (pushToCloud true t s).2.pendingFlag = false ∧
    loadHasPendingSync (pushToCloud true t s).2 = false :=
  ⟨rfl, rfl, rfl, rfl, rfl, rfl⟩

/-- Claim C8: the pull returns a trip document if and only if the fetch
produced an ok response whose body parsed to a value with a non-empty
identity field; a non-ok response, a parse failure, or a transport error
each yield null (and the operation is total into an optional value, never
propagating an exception). -/
theorem pull_returns_doc_iff (net : PullNet) (t : Trip) :
    (pullFromCloud net = some t ↔
      net = PullNet.response true (BodyParse.parsed (some t)) ∧ t.id ≠ "") ∧
    pullFromCloud PullNet.transportError = none ∧
    (∀ body, pullFromCloud (PullNet.response false body) = none) ∧
    pullFromCloud (PullNet.response true BodyParse.parseError) = none := by
  refine ⟨⟨?_, ?_⟩, rfl, fun body => rfl, rfl⟩
  · intro h
    cases net with
    | transportError => exact absurd h (by simp [pullFromCloud])
    | response ok body =>
      cases ok with
      | false => exact absurd h (by simp [pullFromCloud])
      | true =>
        cases body with
        | parseError => exact absurd h (by simp [pullFromCloud])
        | parsed d =>
          cases d with
          | none => exact absurd h (by simp [pullFromCloud])
          | some t2 =>
            cases hid : (t2.id == "") with
            | true => simp [pullFromCloud, hid] at h
            | false =>
              simp [pullFromCloud, hid] at h
              subst h
              refine ⟨rfl, fun hEq => ?_⟩
              rw [hEq] at hid
              simp at hid
  · rintro ⟨rfl, hne⟩
    have hid : (t.id == "") = false := by
      cases hb : (t.id == "") with
      | true => exact absurd (by simpa using hb) hne
      | false => rfl
    simp [pullFromCloud, hid]

/-- Claim C1: on initial pull, when both the local and the remote document
carry a (non-empty) `lastSynced` stamp, the copy with the greater ISO-8601
string is adopted as both the stored and the in-memory document; when the
remote stamp is not greater (in particular on equal stamps) the local copy
is kept unchanged. -/
theorem initial_pull_newer_wins (s : AppState) (l cloud : Trip) (cs ls : String)
    (hon : s.online = true) (hl : s.storedTrip = some l)
    (hcs : cloud.lastSynced = some cs) (hls : l.lastSynced = some ls)
    (hcs0 : cs ≠ "") (hls0 : ls ≠ "") :
    (jsStrLt ls cs = true →
      (performInitialPull (some cloud) s).storedTrip = some cloud ∧
      (performInitialPull (some cloud) s).trip = some cloud) ∧
    (jsStrLt ls cs = false →
      (performInitialPull (some cloud) s).storedTrip = some l ∧
      (performInitialPull (some cloud) s).trip = s.trip) ∧
    (cs = ls →
      (performInitialPull (some cloud) s).storedTrip = some l ∧
      (performInitialPull (some cloud) s).trip = s.trip) := by
  have hc0 : (cs == "") = false := by simp [hcs0]
  have hl0 : (ls == "") = false := by simp [hls0]
  have hadopt : adoptCloud s.storedTrip cloud = jsStrLt ls cs := by
    rw [hl]
    simp [adoptCloud, hcs, hls, hc0, hl0]
  have keep : jsStrLt ls cs = false →
      (performInitialPull (some cloud) s).storedTrip = some l ∧
      (performInitialPull (some cloud) s).trip = s.trip := by
    intro hgeq
    have had : adoptCloud s.storedTrip cloud = false := hadopt.trans hgeq
    have hstate : performInitialPull (some cloud) s = { s with syncing := false } := by
      simp [performInitialPull, hon, had]
    exact ⟨by rw [hstate]; exact hl, by rw [hstate]⟩
  refine ⟨?_, keep, fun hEq => keep (by rw [hEq]; exact jsStrLt_irrefl ls)⟩
  intro hlt
  have had : adoptCloud s.storedTrip cloud = true := hadopt.trans hlt
  have hstate : performInitialPull (some cloud) s =
      { s with trip := some cloud, storedTrip := some cloud,
               lastSyncedAt :=
                 if jsTruthyStr cloud.lastSynced then cloud.lastSynced else s.lastSyncedAt,
               hasPendingSync := false, pendingFlag := false, syncing := false } := by
    simp [performInitialPull, hon, had]
  exact ⟨by rw [hstate], by rw [hstate]⟩

/-- Witness for C1 at concrete documents: the remote copy carries the
later stamp and is adopted. -/
theorem initial_pull_newer_wins_witness :
    (performInitialPull (some tripR) stateW).storedTrip = some tripR ∧
    (performInitialPull (some tripR) stateW).trip = some tripR := by
  have h := initial_pull_newer_wins stateW tripL tripR
    "2026-01-02T00:00:00Z" "2026-01-01T00:00:00Z"
    rfl rfl rfl rfl (by decide) (by decide)
  exact h.1 (by decide)

/-- Claim C9: for a burst of edits all landing inside the debounce window
(no timer expiry interleaved), no push is dispatched during the burst, a
single timer is armed carrying the state produced by the last edit (each
edit cancels and re-arms it), and when that one timer fires online,
exactly one push is dispatched and it carries the stamped document of the last
document. -/
theorem debounced_edits_coalesce (edits : List (String × Trip)) (s : AppState)
    (netOk : Bool) (nowIso : String) (hne : edits ≠ []) (hon : s.online = true) :
    ∃ e, edits.getLast? = some e ∧
      (applyEdits edits s).pushLog = s.pushLog ∧
      (applyEdits edits s).pendingTimer = some (stampTrip e.1 e.2) ∧
      (timerFire netOk nowIso (applyEdits edits s)).pushLog =
        s.pushLog ++ [stampTrip e.1 e.2] ∧
      (timerFire netOk nowIso (applyEdits edits s)).pendingTimer = none := by
  have hnone : edits.getLast? ≠ none := fun h =>
    hne (List.getLast?_eq_none_iff.mp h)
  obtain ⟨e, he⟩ := Option.ne_none_iff_exists'.mp hnone
  obtain ⟨h1, h2, h3⟩ := applyEdits_spec edits s
  have htimer : (applyEdits edits s).pendingTimer = some (stampTrip e.1 e.2) := by
    rw [h3, he]
  have honline : (applyEdits edits s).online = true := h2.trans hon
  refine ⟨e, he, h1, htimer, ?_, ?_⟩
  · unfold timerFire
    rw [htimer]
    cases netOk <;> simp [pushToCloud, honline, h1]
  · unfold timerFire
    rw [htimer]
    cases netOk <;> simp [pushToCloud, honline]

/-- Witness for C9: two edits inside one debounce window dispatch exactly
the single push carrying the stamped document of the second edit. -/
theorem debounced_edits_coalesce_witness :
    (applyEdits editsEx stateW).pushLog = [] ∧
    (timerFire true "2026-01-03T00:00:00Z" (applyEdits editsEx stateW)).pushLog =
      [stampTrip "2026-01-02T00:00:00Z" tripR] := by
  have h := debounced_edits_coalesce editsEx stateW true "2026-01-03T00:00:00Z"
    (by decide) rfl
  obtain ⟨e, he, h1, h2, h3, h4⟩ := h
  have heq : e = ("2026-01-02T00:00:00Z", tripR) := by
    have : editsEx.getLast? = some ("2026-01-02T00:00:00Z", tripR) := by
      simp [editsEx]
    rw [this] at he
    exact (Option.some.injEq _ _ ▸ he).symm
  subst heq
  exact ⟨h1, h3⟩

/-- Claim C4: when the circuit-breaker cooldown is active at call time (and
the key is an actual city name, i.e. non-empty — the only keys the cache
can hold), the guarded fetch makes zero network calls, returns the cached
value for the key whenever any cache entry exists (its timestamp is never
consulted, so even a stale one is served), returns null otherwise, and
leaves the store untouched. -/
theorem cooldown_skips_network (city : String) (now : Nat)
    (fn : Nat → Except JsError RespParse) (errTime : Nat → Nat) (s : WeatherStore)
    (hcity : city ≠ "") (hcd : cooldownActive s.cooldown now = true) :
    (getCityWeather city now fn errTime s).networkCalls = 0 ∧
    (getCityWeather city now fn errTime s).result =
      (match s.cache (weatherCacheKey city) with
       | some e => some e.data
       | none => none) ∧
    (getCityWeather city now fn errTime s).store = s := by
  rcases hc : s.cache (weatherCacheKey city) with _ | e <;>
    simp [getCityWeather, hcity, hcd, hc]

/-- Witness for C4: a store in cooldown with one stale entry for the key
serves that entry without a network call. -/
theorem cooldown_skips_network_witness :
    (getCityWeather "Paris" 500 fnErr timeZero storeCooldown).networkCalls = 0 ∧
    (getCityWeather "Paris" 500 fnErr timeZero storeCooldown).result =
      some weatherDataEx := by
  have h := cooldown_skips_network "Paris" 500 fnErr timeZero storeCooldown
    (by decide) (by decide)
  refine ⟨h.1, ?_⟩
  rw [h.2.1]
  rfl

/-- Claim C5: the retry policy of the guarded fetch performs at most one
retry (so at most two calls under the default `maxRetries = 1`); a success
or a non-rate-limit error on the first attempt ends the loop after one
call with no sleep and no cooldown write; a rate-limit error on the first
attempt triggers exactly one retry after the initial 3000 ms backoff and
immediately writes the cooldown `errTime 0 + COOLDOWN_DURATION`
(independent of how the retry turns out); a rate-limit error on the retry adds
a second cooldown write; and in general the slept delays form the doubling
geometric schedule starting at the initial delay. -/
theorem retry_policy {T : Type} (fn : Nat → Except JsError T) (errTime : Nat → Nat) :
    (retryWithBackoff fn errTime 1 3000).callsMade ≤ 2 ∧
    (∀ v, fn 0 = Except.ok v →
      (retryWithBackoff fn errTime 1 3000).result = Except.ok v ∧
      (retryWithBackoff fn errTime 1 3000).callsMade = 1 ∧
      (retryWithBackoff fn errTime 1 3000).sleeps = [] ∧
      (retryWithBackoff fn errTime 1 3000).cooldownSets = []) ∧
    (∀ e, fn 0 = Except.error e → isRateLimit e = false →
      (retryWithBackoff fn errTime 1 3000).result = Except.error e ∧
      (retryWithBackoff fn errTime 1 3000).callsMade = 1 ∧
      (retryWithBackoff fn errTime 1 3000).sleeps = [] ∧
      (retryWithBackoff fn errTime 1 3000).cooldownSets = []) ∧
    (∀ e, fn 0 = Except.error e → isRateLimit e = true →
      (retryWithBackoff fn errTime 1 3000).callsMade = 2 ∧
      (retryWithBackoff fn errTime 1 3000).sleeps = [3000] ∧
      (retryWithBackoff fn errTime 1 3000).cooldownSets.head? =
        some (errTime 0 + COOLDOWN_DURATION)) ∧
    (∀ e eR, fn 0 = Except.error e → isRateLimit e = true →
      fn 1 = Except.error eR → isRateLimit eR = true →
      (retryWithBackoff fn errTime 1 3000).cooldownSets =
        [errTime 0 + COOLDOWN_DURATION, errTime 1 + COOLDOWN_DURATION]) ∧
    (∀ (r i d : Nat), ∃ n, (retryLoop fn errTime i d r).sleeps = geometricList d n) := by
  refine ⟨?_, ?_, ?_, ?_, ?_, retryLoop_sleeps_geometric fn errTime⟩
  · rcases h0 : fn 0 with e | v
    · cases hrl : isRateLimit e with
      | false => simp [retryWithBackoff, retryLoop, h0, hrl]
      | true =>
        rcases h1 : fn 1 with e2 | v2 <;>
          simp [retryWithBackoff, retryLoop, h0, hrl, h1]
    · simp [retryWithBackoff, retryLoop, h0]
  · intro v h0
    simp [retryWithBackoff, retryLoop, h0]
  · intro e h0 hrl
    simp [retryWithBackoff, retryLoop, h0, hrl]
  · intro e h0 hrl
    rcases h1 : fn 1 with e2 | v2 <;>
      simp [retryWithBackoff, retryLoop, h0, hrl, h1]
  · intro e eR h0 hrl h1 hrlR
    simp [retryWithBackoff, retryLoop, h0, hrl, h1, hrlR]

/-- Witness for C5: a network that is rate-limited on both attempts makes
two calls, sleeps the single 3000 ms backoff, and writes the cooldown
twice, each at the clock of the observing attempt plus the fixed duration. -/
theorem retry_policy_witness :
    (retryWithBackoff fn429 timeLin 1 3000).callsMade = 2 ∧
    (retryWithBackoff fn429 timeLin 1 3000).sleeps = [3000] ∧
    (retryWithBackoff fn429 timeLin 1 3000).cooldownSets =
      [timeLin 0 + COOLDOWN_DURATION, timeLin 1 + COOLDOWN_DURATION] := by
  have h := retry_policy fn429 timeLin
  have h4 := h.2.2.2.1 { message := some "429 rate limit", status := none }
    rfl (by decide)
  have h5 := h.2.2.2.2.1 { message := some "429 rate limit", status := none }
    { message := some "429 rate limit", status := none }
    rfl (by decide) rfl (by decide)
  exact ⟨h4.1, h4.2.1, h5⟩

/-- Claim C6: whenever the network call of the guarded fetch ends in final
failure (retries exhausted or a non-retryable error), the fetch returns
the cache entry read for the key if one exists — the stale fallback — and
null otherwise; and the operation is total into an optional value for
every input, never propagating an exception past its boundary. -/
theorem final_failure_stale_fallback (city : String) (now : Nat)
    (fn : Nat → Except JsError RespParse) (errTime : Nat → Nat) (s : WeatherStore)
    (err : JsError)
    (hcity : city ≠ "") (hcd : cooldownActive s.cooldown now = false)
    (hfresh : cacheFresh s (weatherCacheKey city) now = false)
    (herr : (retryWithBackoff fn errTime 1 3000).result = Except.error err) :
    (getCityWeather city now fn errTime s).result =
      (match s.cache (weatherCacheKey city) with
       | some e => some e.data
       | none => none) ∧
    (∀ (c2 : String) (n2 : Nat) (f2 : Nat → Except JsError RespParse)
       (t2 : Nat → Nat) (s2 : WeatherStore),
       (getCityWeather c2 n2 f2 t2 s2).result = none ∨
       ∃ w, (getCityWeather c2 n2 f2 t2 s2).result = some w) := by
  refine ⟨?_, fun c2 n2 f2 t2 s2 => ?_⟩
  · rw [getCityWeather_network_eq city now fn errTime s hcity hcd hfresh]
    rcases hc : s.cache (weatherCacheKey city) with _ | e <;>
      simp [weatherNetworkCall, herr, staleFallback, hc]
  · cases h : (getCityWeather c2 n2 f2 t2 s2).result with
    | none => exact Or.inl rfl
    | some w => exact Or.inr ⟨w, rfl⟩

/-- Witness for C6: a non-retryable failure over a store holding a stale
entry for the key serves that stale entry. -/
theorem final_failure_stale_fallback_witness :
    (getCityWeather "Paris" CACHE_DURATION fnErr timeZero staleStore).result =
      some weatherDataEx := by
  have h := final_failure_stale_fallback "Paris" CACHE_DURATION fnErr timeZero
    staleStore { message := some "offline", status := none }
    (by decide) rfl (by decide) rfl
  rw [h.1]
  rfl

/-- Claim C10: when the network call of the guarded fetch succeeds but the
parsed payload lacks `temp`, the fetch returns null and the cache is left
completely unchanged; the cache entry for the key is overwritten — with
the fresh payload and the current timestamp — exactly when `temp` is
present, in which case that payload is also returned. -/
theorem missing_temp_keeps_cache (city : String) (now : Nat)
    (fn : Nat → Except JsError RespParse) (errTime : Nat → Nat) (s : WeatherStore)
    (w : WeatherData)
    (hcity : city ≠ "") (hcd : cooldownActive s.cooldown now = false)
    (hfresh : cacheFresh s (weatherCacheKey city) now = false)
    (hok : (retryWithBackoff fn errTime 1 3000).result =
      Except.ok (RespParse.parsed w))
    (htemp : w.temp = none) :
    (getCityWeather city now fn errTime s).result = none ∧
    (getCityWeather city now fn errTime s).store.cache = s.cache ∧
    (∀ (f2 : Nat → Except JsError RespParse) (w2 : WeatherData) (v : Int),
      (retryWithBackoff f2 errTime 1 3000).result =
        Except.ok (RespParse.parsed w2) →
      w2.temp = some v →
      (getCityWeather city now f2 errTime s).store.cache (weatherCacheKey city) =
        some ⟨w2, now⟩ ∧
      (getCityWeather city now f2 errTime s).result = some w2) := by
  refine ⟨?_, ?_, fun f2 w2 v hok2 htemp2 => ?_⟩
  · rw [getCityWeather_network_eq city now fn errTime s hcity hcd hfresh]
    simp [weatherNetworkCall, hok, htemp]
  · rw [getCityWeather_network_eq city now fn errTime s hcity hcd hfresh]
    simp [weatherNetworkCall, hok, htemp]
  · rw [getCityWeather_network_eq city now f2 errTime s hcity hcd hfresh]
    simp [weatherNetworkCall, hok2, htemp2, setCache]

/-- Witness for C10: a payload without `temp` over an empty store returns
null and writes nothing to the cache. -/
theorem missing_temp_keeps_cache_witness :
    (getCityWeather "Paris" 0 fnNoTemp timeZero emptyStore).result = none ∧
    (getCityWeather "Paris" 0 fnNoTemp timeZero emptyStore).store.cache
      "ws_weather_paris" = none := by
  have h := missing_temp_keeps_cache "Paris" 0 fnNoTemp timeZero emptyStore
    { temp := none, condition := some "Sunny" }
    (by decide) rfl rfl rfl rfl
  refine ⟨h.1, ?_⟩
  rw [h.2.1]
  rfl

end WanderSync
